import Mathlib

/-!
Shallow embedding of the lesson-shop REST backend (src/Express.js).

The program is a set of Express request handlers over a MongoDB document
store.  Each handler is embedded as a pure Lean function from the store
state (and the request data) to a `HandlerResult`: the HTTP response, the
store state after the call, and the trace of store operations the handler
performed.  Store-level exceptions are modelled by an optional `StoreErr`
argument: when present, the store operation the handler runs raises that
error, exactly where the JavaScript promise would reject.

The MongoDB store itself is an external collaborator; its operations are
modelled at the level the handlers use them:
  * `$text` full-text search over the `subject`/`location` text index is
    modelled as case-insensitive whole-word matching (tokens of the query
    against tokens of the indexed fields), which is MongoDB text search
    without stemming;
  * `$regex` with option `"i"` applied to the literal query string is
    modelled as case-insensitive substring containment (exact for every
    query free of regex metacharacters);
  * `ObjectId.isValid` is modelled by MongoDB's structural rule: a
    24-character hex string, or any 12-character string (12-byte form);
  * `updateOne` / `deleteOne` touch the first matching document only, and
    `modifiedCount` counts a document only when `$set` actually changed it.
-/

/-- A Mongo-style document: an identifier plus named string fields.
`subject` and `location` live in `fields` like any other attribute. -/
structure Lesson where
  oid : String
  fields : List (String × String)
deriving DecidableEq, Repr

/-- An order document, as persisted by `POST /order`:
`{ orderInfo, lessonId }`. -/
structure Order where
  orderInfo : String
  lessonId : List String
deriving DecidableEq, Repr

/-- The document store: the `lessons` and `order` collections. -/
structure DB where
  lessons : List Lesson
  orders : List Order
deriving DecidableEq, Repr

/-- A store-level exception (a rejected MongoDB promise), carrying the
JavaScript error's `message`. -/
structure StoreErr where
  message : String
deriving DecidableEq, Repr

/-- One store operation performed by a handler; handlers record the
operations they execute so that "does not touch the store" is expressible. -/
inductive StoreOp where
  | findText (q : String)
  | findRegex (q : String)
  | findAll
  | insertOrder (orderInfo : String) (ids : List String)
  | updateLesson (id : String) (upd : List (String × String))
  | deleteLesson (id : String)
deriving DecidableEq, Repr

/-- The JSON body of a response, one constructor per body shape the
program produces. -/
inductive RespBody where
  /-- an array of lesson documents -/
  | lessonsList (ls : List Lesson)
  /-- The body `{ error: ... }`. -/
  | errMsg (error : String)
  /-- The body `{ message: ..., insertedId: ... }`. -/
  | orderCreated (message : String) (insertedId : String)
  /-- The body `{ message: ... }`. -/
  | message (message : String)
  /-- The body `{ message: ..., error: ... }` of the centralized error middleware. -/
  | errorFull (message : String) (error : String)
  /-- The body `{ status: ..., message: ..., timestamp: ... }`. -/
  | health (status : String) (message : String) (timestamp : Nat)
deriving DecidableEq, Repr

/-- An HTTP response: status code and JSON body. -/
structure Response where
  status : Nat
  body : RespBody
deriving DecidableEq, Repr

/-- The outcome of one handler invocation: the response sent, the store
state afterwards, and the store operations performed. -/
structure HandlerResult where
  resp : Response
  db : DB
  trace : List StoreOp
deriving DecidableEq, Repr

/-- The `message` field of a response body, when the body has one. -/
def bodyMessage : RespBody → Option String
  | .orderCreated m _ => some m
  | .message m => some m
  | .errorFull m _ => some m
  | .health _ m _ => some m
  | _ => none

/-- The `timestamp` field of a response body (0 when absent). -/
def bodyTimestamp : RespBody → Nat
  | .health _ _ t => t
  | _ => 0

/-- Lowercased character list of a string (case-folding for the
case-insensitive store operators). -/
def lowerChars (s : String) : List Char :=
  s.toList.map Char.toLower

/-- Whether `needle` occurs as a contiguous sublist of `hay`. -/
def listInfix (needle hay : List Char) : Bool :=
  match hay with
  | [] => needle.isEmpty
  | _ :: rest => needle.isPrefixOf hay || listInfix needle rest

/-- Case-insensitive substring containment: the model of MongoDB
`{ $regex: q, $options: "i" }` applied to the literal query string. -/
def containsCI (hay needle : String) : Bool :=
  listInfix (lowerChars needle) (lowerChars hay)

/-- Value of a lesson's `subject` field (empty when absent, which matches
no non-empty query). -/
def subjectOf (l : Lesson) : String :=
  (l.fields.lookup "subject").getD ""

/-- Value of a lesson's `location` field. -/
def locationOf (l : Lesson) : String :=
  (l.fields.lookup "location").getD ""

/-- Splits a character stream into space-separated words; `acc` holds the
reversed characters of the word being read. -/
def tokensAux (cs : List Char) (acc : List Char) : List String :=
  match cs with
  | [] => if acc.isEmpty then [] else [⟨acc.reverse⟩]
  | c :: rest =>
    if c = ' ' then
      if acc.isEmpty then tokensAux rest [] else ⟨acc.reverse⟩ :: tokensAux rest []
    else tokensAux rest (c :: acc)

/-- Whitespace tokenization used by the full-text index model. -/
def tokensOf (s : String) : List String :=
  tokensAux s.toList []

/-- Model of the `$text : { $search : q }` match against the text index on
`subject` and `location`: some query token equals (case-insensitively) some
token of the indexed fields. -/
def textIndexMatch (q : String) (l : Lesson) : Bool :=
  (tokensOf q).any (fun w =>
    (tokensOf (subjectOf l) ++ tokensOf (locationOf l)).any
      (fun t => lowerChars t == lowerChars w))

/-- The fallback `$or` regex filter of the search route: `subject` OR
`location` contains the query, case-insensitively. -/
def regexFallbackMatch (q : String) (l : Lesson) : Bool :=
  containsCI (subjectOf l) q || containsCI (locationOf l) q

/-- Returns `true` iff the character is a hexadecimal digit. -/
def isHexDigit (c : Char) : Bool :=
  c.isDigit || ('a' ≤ c && c ≤ 'f') || ('A' ≤ c && c ≤ 'F')

/-- Model of the driver's `ObjectId.isValid`: a 24-character hex string,
or any 12-character string (taken as 12 bytes). -/
def ObjectId.isValid (s : String) : Bool :=
  (s.length == 24 && s.toList.all isHexDigit) || s.length == 12

/-- The centralized error-handling middleware: logs, then answers
`500` with `{ message: "Something went wrong!", error: err.message ||
"Internal Server Error" }`. -/
def errorMiddleware (e : StoreErr) : Response :=
  ⟨500, .errorFull "Something went wrong!"
    (if e.message = "" then "Internal Server Error" else e.message)⟩

/-- Handler for `GET /search` (src/Express.js:76-108).  `q` is the `q` query
parameter (`none` when absent); JavaScript `!searchQuery` is true for both
`undefined` and the empty string.  `fault` models the store rejecting the
find that the handler runs; the handler's own `try/catch` answers `500`
locally with its own message, without reaching the centralized middleware. -/
def handleSearch (db : DB) (q : Option String) (fault : Option StoreErr) :
    HandlerResult :=
  match q with
  | none => ⟨⟨406, .errMsg "Search query is required."⟩, db, []⟩
  | some s =>
    if s = "" then ⟨⟨406, .errMsg "Search query is required."⟩, db, []⟩
    else
      match fault with
      | some _ =>
          ⟨⟨500, .errMsg "An error occurred during the search."⟩, db,
            [.findText s]⟩
      | none =>
        let results := db.lessons.filter (textIndexMatch s)
        if results.isEmpty then
          let regexResults := db.lessons.filter (regexFallbackMatch s)
          if regexResults.isEmpty then
            ⟨⟨404, .errMsg "No lessons found."⟩, db, [.findText s, .findRegex s]⟩
          else
            ⟨⟨200, .lessonsList regexResults⟩, db, [.findText s, .findRegex s]⟩
        else
          ⟨⟨200, .lessonsList results⟩, db, [.findText s]⟩

/-- Handler for `GET /lessons` (src/Express.js:111-120): return every lesson; a store
failure is passed to `next(error)`, i.e. the centralized middleware. -/
def handleLessons (db : DB) (fault : Option StoreErr) : HandlerResult :=
  match fault with
  | some e => ⟨errorMiddleware e, db, [.findAll]⟩
  | none => ⟨⟨200, .lessonsList db.lessons⟩, db, [.findAll]⟩

/-- The `lessonId` field of a `POST /order` body.  `absent` is a body with
no `lessonId` key (so `lessonId` is `undefined`); `notArray` is any value
without an `every` method; `array` is a proper array of strings. -/
inductive LessonIdField where
  | absent
  | notArray (desc : String)
  | array (ids : List String)
deriving DecidableEq, Repr

/-- The driver-generated identifier of the next inserted order document. -/
def genId (db : DB) : String :=
  "oid" ++ toString db.orders.length

/-- The `TypeError` JavaScript raises for `lessonId.every` when `lessonId`
has no `every` method.  Express catches a synchronous throw in a handler
and forwards it to the error middleware. -/
def everyTypeError : LessonIdField → StoreErr
  | .absent => ⟨"Cannot read properties of undefined (reading 'every')"⟩
  | .notArray d => ⟨d ++ ".every is not a function"⟩
  | .array _ => ⟨""⟩

/-- Handler for `POST /order` (src/Express.js:123-145): destructure
`{orderInfo, lessonId}`, call `lessonId.every(ObjectId.isValid)` — which
throws when `lessonId` is not an array — answer `400` when some id is
structurally invalid, otherwise insert the order and answer `201` with the
generated `insertedId`.  A store failure goes to `next(error)`. -/
def handleOrder (db : DB) (orderInfo : String) (lessonId : LessonIdField)
    (fault : Option StoreErr) : HandlerResult :=
  match lessonId with
  | .absent => ⟨errorMiddleware (everyTypeError .absent), db, []⟩
  | .notArray d => ⟨errorMiddleware (everyTypeError (.notArray d)), db, []⟩
  | .array ids =>
    if !(ids.all (fun id => ObjectId.isValid id)) then
      ⟨⟨400, .errMsg "One or more lesson IDs are invalid."⟩, db, []⟩
    else
      match fault with
      | some e => ⟨errorMiddleware e, db, [.insertOrder orderInfo ids]⟩
      | none =>
        ⟨⟨201, .orderCreated "Order placed successfully" (genId db)⟩,
          { db with orders := db.orders ++ [⟨orderInfo, ids⟩] },
          [.insertOrder orderInfo ids]⟩

/-- The `$set` of a single field: replace the field's first occurrence, or
append the field when the document lacks it. -/
def setField (fs : List (String × String)) (k v : String) :
    List (String × String) :=
  match fs with
  | [] => [(k, v)]
  | (k', v') :: rest =>
      if k' = k then (k, v) :: rest else (k', v') :: setField rest k v

/-- MongoDB `$set` with a whole update document: apply `setField` for each
submitted field, leaving every other field untouched. -/
def applySet (fs upd : List (String × String)) : List (String × String) :=
  match upd with
  | [] => fs
  | (k, v) :: rest => applySet (setField fs k v) rest

/-- Whether `$set upd` actually changes the document's fields. -/
def setChanges (fs upd : List (String × String)) : Bool :=
  upd.any (fun kv => !(fs.lookup kv.1 == some kv.2))

/-- The `updateOne` effect on the collection: `$set` on the first document
with the given id, every other document untouched. -/
def updateFirst (ls : List Lesson) (id : String)
    (upd : List (String × String)) : List Lesson :=
  match ls with
  | [] => []
  | l :: rest =>
      if l.oid = id then { l with fields := applySet l.fields upd } :: rest
      else l :: updateFirst rest id upd

/-- The `updateOne` result `modifiedCount`: 1 exactly when the first document with
the given id exists and `$set` changed it. -/
def modifiedCount (ls : List Lesson) (id : String)
    (upd : List (String × String)) : Nat :=
  match ls.find? (fun l => l.oid = id) with
  | none => 0
  | some l => if setChanges l.fields upd then 1 else 0

/-- Handler for `PUT /updateLesson/:id` (src/Express.js:148-174): `408` on a
structurally invalid id, `408` on an empty body, then `updateOne` with
`$set`; `408` when `modifiedCount` is zero, success message otherwise.
A store failure goes to `next(error)`. -/
def handleUpdate (db : DB) (id : String) (body : List (String × String))
    (fault : Option StoreErr) : HandlerResult :=
  if !(ObjectId.isValid id) then
    ⟨⟨408, .errMsg "Invalid lesson ID."⟩, db, []⟩
  else if body.isEmpty then
    ⟨⟨408, .errMsg "No data provided for update."⟩, db, []⟩
  else
    match fault with
    | some e => ⟨errorMiddleware e, db, [.updateLesson id body]⟩
    | none =>
      let db' : DB := { db with lessons := updateFirst db.lessons id body }
      if modifiedCount db.lessons id body > 0 then
        ⟨⟨200, .message "Lesson updated successfully"⟩, db',
          [.updateLesson id body]⟩
      else
        ⟨⟨408, .errMsg "Lesson not found or no fields changed."⟩, db',
          [.updateLesson id body]⟩

/-- The `deleteOne` effect: remove the first document with the given id. -/
def deleteFirst (ls : List Lesson) (id : String) : List Lesson :=
  match ls with
  | [] => []
  | l :: rest => if l.oid = id then rest else l :: deleteFirst rest id

/-- The `deleteOne` result `deletedCount`: 1 exactly when a document with the id
exists. -/
def deletedCount (ls : List Lesson) (id : String) : Nat :=
  if ls.any (fun l => l.oid = id) then 1 else 0

/-- Handler for `DELETE /deleteLesson/:id` (src/Express.js:177-197): `408` on a
structurally invalid id, then `deleteOne`; `408` when `deletedCount` is
zero, success message otherwise.  A store failure goes to `next(error)`. -/
def handleDelete (db : DB) (id : String) (fault : Option StoreErr) :
    HandlerResult :=
  if !(ObjectId.isValid id) then
    ⟨⟨408, .errMsg "Invalid lesson ID."⟩, db, []⟩
  else
    match fault with
    | some e => ⟨errorMiddleware e, db, [.deleteLesson id]⟩
    | none =>
      if deletedCount db.lessons id > 0 then
        ⟨⟨200, .message "Lesson deleted successfully"⟩,
          { db with lessons := deleteFirst db.lessons id },
          [.deleteLesson id]⟩
      else
        ⟨⟨408, .errMsg "Lesson not found."⟩, db, [.deleteLesson id]⟩

/-- Handler for `GET /health` (src/Express.js:209-215): `200` with
`{status, message, timestamp}` where the timestamp is `new Date()` — the
clock reading at the time of the call, passed here as `now`. -/
def handleHealth (now : Nat) : Response :=
  ⟨200, .health "success" "Server is healthy and running!" now⟩

/-! ## Helper lemmas -/

/-- The function `setField` leaves the lookup of every other key unchanged. -/
theorem lookup_setField_ne (fs : List (String × String)) (k z v : String)
    (h : k ≠ z) : (setField fs z v).lookup k = fs.lookup k := by
  have hb : (k == z) = false := beq_eq_false_iff_ne.mpr h
  induction fs with
  | nil => simp [setField, List.lookup, hb]
  | cons kv rest ih =>
    obtain ⟨k1, v1⟩ := kv
    by_cases hk1 : k1 = z
    · subst hk1
      simp [setField, List.lookup, hb]
    · simp [setField, hk1, List.lookup, ih]

/-- Applying `$set` leaves the lookup of every key not submitted in the update
unchanged. -/
theorem lookup_applySet_notMem (upd fs : List (String × String)) (k : String)
    (h : k ∉ upd.map Prod.fst) : (applySet fs upd).lookup k = fs.lookup k := by
  induction upd generalizing fs with
  | nil => rfl
  | cons kv rest ih =>
    obtain ⟨k1, v1⟩ := kv
    simp only [List.map_cons, List.mem_cons, not_or] at h
    rw [applySet, ih _ h.2, lookup_setField_ne _ _ _ _ h.1]

/-- Each position of `updateFirst`'s output holds the original document or
its `$set` image. -/
theorem updateFirst_getEq (ls : List Lesson) (id : String)
    (upd : List (String × String)) (i : Nat) :
    (updateFirst ls id upd)[i]? = ls[i]? ∨
    ∃ l, ls[i]? = some l ∧
      (updateFirst ls id upd)[i]? = some { l with fields := applySet l.fields upd } := by
  induction ls generalizing i with
  | nil => left; simp [updateFirst]
  | cons l rest ih =>
    by_cases h : l.oid = id
    · cases i with
      | zero => right; exact ⟨l, by simp [updateFirst, h]⟩
      | succ n => left; simp [updateFirst, h]
    · cases i with
      | zero => left; simp [updateFirst, h]
      | succ n => simpa [updateFirst, h] using ih n

/-- Deleting an existing document shortens the collection by exactly one. -/
theorem deleteFirst_length (ls : List Lesson) (id : String)
    (h : ls.any (fun l => l.oid = id) = true) :
    (deleteFirst ls id).length + 1 = ls.length := by
  induction ls with
  | nil => simp at h
  | cons l rest ih =>
    by_cases hl : l.oid = id
    · simp [deleteFirst, hl]
    · simp only [List.any_cons, Bool.or_eq_true, decide_eq_true_eq] at h
      rcases h with h | h
      · exact absurd h hl
      · simp only [deleteFirst, if_neg hl, List.length_cons]
        rw [← ih h]

/-! ## Claim theorems -/

/-- C2: for every `GET /search` request whose query string is absent or
empty, the handler answers HTTP 406 and performs no store operation: the
store state is returned unchanged and the operation trace is empty. -/
theorem search_empty_query_406_no_store (db : DB) (q : Option String)
    (fault : Option StoreErr) (h : q = none ∨ q = some "") :
    (handleSearch db q fault).resp.status = 406 ∧
    (handleSearch db q fault).db = db ∧
    (handleSearch db q fault).trace = [] := by
  rcases h with h | h <;> subst h <;> simp [handleSearch]

/-- Witness for C2 at the concrete empty-string query. -/
theorem search_empty_query_406_no_store_witness :
    ((some "" : Option String) = none ∨ (some "" : Option String) = some "") ∧
    ((handleSearch ⟨[], []⟩ (some "") none).resp.status = 406 ∧
     (handleSearch ⟨[], []⟩ (some "") none).db = ⟨[], []⟩ ∧
     (handleSearch ⟨[], []⟩ (some "") none).trace = []) :=
  ⟨Or.inr rfl, search_empty_query_406_no_store ⟨[], []⟩ (some "") none (Or.inr rfl)⟩

/-- C3: for every non-empty query for which both the full-text search and
the fallback substring search match zero documents, `GET /search` answers
HTTP 404 with the "No lessons found." body. -/
theorem search_no_match_404 (db : DB) (q : String) (h : q ≠ "")
    (h1 : db.lessons.filter (textIndexMatch q) = [])
    (h2 : db.lessons.filter (regexFallbackMatch q) = []) :
    (handleSearch db (some q) none).resp = ⟨404, .errMsg "No lessons found."⟩ := by
  simp [handleSearch, h, h1, h2]

/-- Witness for C3: the query `"zzz"` against a store holding one
mathematics lesson. -/
theorem search_no_match_404_witness :
    ("zzz" ≠ "") ∧
    (handleSearch
        ⟨[⟨"aaaaaaaaaaaaaaaaaaaaaaaa", [("subject", "Mathematics"), ("location", "London")]⟩], []⟩
        (some "zzz") none).resp = ⟨404, .errMsg "No lessons found."⟩ :=
  ⟨by decide,
    search_no_match_404
      ⟨[⟨"aaaaaaaaaaaaaaaaaaaaaaaa", [("subject", "Mathematics"), ("location", "London")]⟩], []⟩
      "zzz" (by decide) (by decide) (by decide)⟩

/-- C4: `POST /order` with a `lessonId` array: when some entry is not a
structurally valid identifier the handler answers 400 and the store is
untouched; when every entry is valid the order `{orderInfo, lessonId}` is
appended to the `order` collection and the handler answers 201 with the
generated `insertedId`. -/
theorem order_validates_ids_then_persists (db : DB) (info : String)
    (ids : List String) (fault : Option StoreErr) :
    (ids.all (fun id => ObjectId.isValid id) = false →
      (handleOrder db info (.array ids) fault).resp =
        ⟨400, .errMsg "One or more lesson IDs are invalid."⟩ ∧
      (handleOrder db info (.array ids) fault).db = db ∧
      (handleOrder db info (.array ids) fault).trace = []) ∧
    (ids.all (fun id => ObjectId.isValid id) = true →
      (handleOrder db info (.array ids) none).resp =
        ⟨201, .orderCreated "Order placed successfully" (genId db)⟩ ∧
      (handleOrder db info (.array ids) none).db =
        { db with orders := db.orders ++ [⟨info, ids⟩] }) := by
  constructor
  · intro h
    simp [handleOrder, h]
  · intro h
    simp [handleOrder, h]

/-- Witness for C4: a malformed id is rejected, an all-valid array is
persisted with the generated id. -/
theorem order_validates_ids_then_persists_witness :
    ((["xx"].all (fun id => ObjectId.isValid id) = false) ∧
      (handleOrder ⟨[], []⟩ "i" (.array ["xx"]) none).resp =
        ⟨400, .errMsg "One or more lesson IDs are invalid."⟩) ∧
    ((["aaaaaaaaaaaaaaaaaaaaaaaa"].all (fun id => ObjectId.isValid id) = true) ∧
      (handleOrder ⟨[], []⟩ "i" (.array ["aaaaaaaaaaaaaaaaaaaaaaaa"]) none).resp =
        ⟨201, .orderCreated "Order placed successfully" "oid0"⟩) :=
  ⟨⟨by decide,
     ((order_validates_ids_then_persists ⟨[], []⟩ "i" ["xx"] none).1 (by decide)).1⟩,
   ⟨by decide,
     ((order_validates_ids_then_persists ⟨[], []⟩ "i" ["aaaaaaaaaaaaaaaaaaaaaaaa"] none).2
        (by decide)).1⟩⟩

/-- C5: `PUT /updateLesson/:id` answers 408 without touching the store on a
structurally invalid id; 408 without touching the store on an empty body;
408 when the update modifies zero documents (in particular for a
well-formed but non-existent id); and a success response when a document
was modified. -/
theorem update_lesson_status_codes (db : DB) (id : String)
    (body : List (String × String)) :
    (ObjectId.isValid id = false →
      (handleUpdate db id body none).resp = ⟨408, .errMsg "Invalid lesson ID."⟩ ∧
      (handleUpdate db id body none).db = db ∧
      (handleUpdate db id body none).trace = []) ∧
    (ObjectId.isValid id = true → body = [] →
      (handleUpdate db id body none).resp = ⟨408, .errMsg "No data provided for update."⟩ ∧
      (handleUpdate db id body none).db = db ∧
      (handleUpdate db id body none).trace = []) ∧
    (ObjectId.isValid id = true → body ≠ [] →
      modifiedCount db.lessons id body = 0 →
      (handleUpdate db id body none).resp =
        ⟨408, .errMsg "Lesson not found or no fields changed."⟩) ∧
    (ObjectId.isValid id = true → body ≠ [] →
      modifiedCount db.lessons id body > 0 →
      (handleUpdate db id body none).resp = ⟨200, .message "Lesson updated successfully"⟩) := by
  refine ⟨?_, ?_, ?_, ?_⟩
  · intro h
    simp [handleUpdate, h]
  · intro h hb
    subst hb
    simp [handleUpdate, h]
  · intro h hb hm
    cases body with
    | nil => exact absurd rfl hb
    | cons kv rest => simp [handleUpdate, h, hm]
  · intro h hb hm
    cases body with
    | nil => exact absurd rfl hb
    | cons kv rest => simp [handleUpdate, h, hm, Nat.pos_iff_ne_zero.mp hm]

/-- Witness for C5: invalid id, empty body, non-existent well-formed id,
and a real update, each at a concrete input. -/
theorem update_lesson_status_codes_witness :
    (ObjectId.isValid "bad" = false ∧
      (handleUpdate ⟨[], []⟩ "bad" [("p", "1")] none).resp =
        ⟨408, .errMsg "Invalid lesson ID."⟩) ∧
    (ObjectId.isValid "aaaaaaaaaaaaaaaaaaaaaaaa" = true ∧
      (handleUpdate ⟨[], []⟩ "aaaaaaaaaaaaaaaaaaaaaaaa" [] none).resp =
        ⟨408, .errMsg "No data provided for update."⟩) ∧
    (modifiedCount ([] : List Lesson) "aaaaaaaaaaaaaaaaaaaaaaaa" [("p", "1")] = 0 ∧
      (handleUpdate ⟨[], []⟩ "aaaaaaaaaaaaaaaaaaaaaaaa" [("p", "1")] none).resp =
        ⟨408, .errMsg "Lesson not found or no fields changed."⟩) ∧
    (modifiedCount [⟨"aaaaaaaaaaaaaaaaaaaaaaaa", [("p", "0")]⟩]
        "aaaaaaaaaaaaaaaaaaaaaaaa" [("p", "1")] > 0 ∧
      (handleUpdate ⟨[⟨"aaaaaaaaaaaaaaaaaaaaaaaa", [("p", "0")]⟩], []⟩
          "aaaaaaaaaaaaaaaaaaaaaaaa" [("p", "1")] none).resp =
        ⟨200, .message "Lesson updated successfully"⟩) :=
  ⟨⟨by decide,
     ((update_lesson_status_codes ⟨[], []⟩ "bad" [("p", "1")]).1 (by decide)).1⟩,
   ⟨by decide,
     ((update_lesson_status_codes ⟨[], []⟩ "aaaaaaaaaaaaaaaaaaaaaaaa" []).2.1
        (by decide) rfl).1⟩,
   ⟨by decide,
     (update_lesson_status_codes ⟨[], []⟩ "aaaaaaaaaaaaaaaaaaaaaaaa" [("p", "1")]).2.2.1
       (by decide) (by decide) (by decide)⟩,
   ⟨by decide,
     (update_lesson_status_codes ⟨[⟨"aaaaaaaaaaaaaaaaaaaaaaaa", [("p", "0")]⟩], []⟩
        "aaaaaaaaaaaaaaaaaaaaaaaa" [("p", "1")]).2.2.2
       (by decide) (by decide) (by decide)⟩⟩

/-- C6: `DELETE /deleteLesson/:id` answers 408 without touching the store
on a structurally invalid id; 408 with the store unchanged when the delete
removes zero documents (in particular an id already deleted); and on
success it answers with the success message having removed exactly one
document. -/
theorem delete_lesson_status_codes (db : DB) (id : String) :
    (ObjectId.isValid id = false →
      (handleDelete db id none).resp = ⟨408, .errMsg "Invalid lesson ID."⟩ ∧
      (handleDelete db id none).db = db ∧
      (handleDelete db id none).trace = []) ∧
    (ObjectId.isValid id = true → deletedCount db.lessons id = 0 →
      (handleDelete db id none).resp = ⟨408, .errMsg "Lesson not found."⟩ ∧
      (handleDelete db id none).db = db) ∧
    (ObjectId.isValid id = true → deletedCount db.lessons id > 0 →
      (handleDelete db id none).resp = ⟨200, .message "Lesson deleted successfully"⟩ ∧
      (handleDelete db id none).db.lessons.length + 1 = db.lessons.length) := by
  refine ⟨?_, ?_, ?_⟩
  · intro h
    simp [handleDelete, h]
  · intro h hd
    simp [handleDelete, h, hd]
  · intro h hd
    have hany : db.lessons.any (fun l => l.oid = id) = true := by
      by_contra hc
      simp only [deletedCount] at hd
      rw [if_neg (by simpa using hc)] at hd
      exact absurd hd (by decide)
    constructor
    · simp [handleDelete, h, hd, Nat.pos_iff_ne_zero.mp hd]
    · have : (handleDelete db id none).db.lessons = deleteFirst db.lessons id := by
        simp [handleDelete, h, hd, Nat.pos_iff_ne_zero.mp hd]
      rw [this]
      exact deleteFirst_length db.lessons id hany

/-- Witness for C6: an invalid id, a valid id absent from the store (as
after a prior delete), and a present id that gets removed. -/
theorem delete_lesson_status_codes_witness :
    (ObjectId.isValid "bad" = false ∧
      (handleDelete ⟨[], []⟩ "bad" none).resp = ⟨408, .errMsg "Invalid lesson ID."⟩) ∧
    (deletedCount ([] : List Lesson) "aaaaaaaaaaaaaaaaaaaaaaaa" = 0 ∧
      (handleDelete ⟨[], []⟩ "aaaaaaaaaaaaaaaaaaaaaaaa" none).resp =
        ⟨408, .errMsg "Lesson not found."⟩) ∧
    (deletedCount [⟨"aaaaaaaaaaaaaaaaaaaaaaaa", []⟩] "aaaaaaaaaaaaaaaaaaaaaaaa" > 0 ∧
      (handleDelete ⟨[⟨"aaaaaaaaaaaaaaaaaaaaaaaa", []⟩], []⟩
          "aaaaaaaaaaaaaaaaaaaaaaaa" none).resp =
        ⟨200, .message "Lesson deleted successfully"⟩ ∧
      (handleDelete ⟨[⟨"aaaaaaaaaaaaaaaaaaaaaaaa", []⟩], []⟩
          "aaaaaaaaaaaaaaaaaaaaaaaa" none).db.lessons.length + 1 = 1) :=
  ⟨⟨by decide, ((delete_lesson_status_codes ⟨[], []⟩ "bad").1 (by decide)).1⟩,
   ⟨by decide,
     ((delete_lesson_status_codes ⟨[], []⟩ "aaaaaaaaaaaaaaaaaaaaaaaa").2.1
        (by decide) (by decide)).1⟩,
   ⟨by decide,
     ((delete_lesson_status_codes ⟨[⟨"aaaaaaaaaaaaaaaaaaaaaaaa", []⟩], []⟩
          "aaaaaaaaaaaaaaaaaaaaaaaa").2.2 (by decide) (by decide)).1,
     ((delete_lesson_status_codes ⟨[⟨"aaaaaaaaaaaaaaaaaaaaaaaa", []⟩], []⟩
          "aaaaaaaaaaaaaaaaaaaaaaaa").2.2 (by decide) (by decide)).2⟩⟩

/-- C10: a `POST /order` body whose `lessonId` is absent or is any value
without an `every` method makes the handler throw at
`lessonId.every(...)`; Express forwards the throw to the centralized
error responder, so the caller gets HTTP 500 with message
"Something went wrong!" — not the 400 validation response — and nothing
is persisted. -/
theorem order_missing_lessonId_500 (db : DB) (info : String)
    (v : LessonIdField) (fault : Option StoreErr)
    (h : v = .absent ∨ ∃ d, v = .notArray d) :
    (handleOrder db info v fault).resp.status = 500 ∧
    bodyMessage (handleOrder db info v fault).resp.body = some "Something went wrong!" ∧
    (handleOrder db info v fault).resp.status ≠ 400 ∧
    (handleOrder db info v fault).db = db ∧
    (handleOrder db info v fault).trace = [] := by
  rcases h with h | ⟨d, h⟩ <;> subst h <;>
    simp [handleOrder, errorMiddleware, bodyMessage]

/-- Witness for C10 at a body with no `lessonId` field. -/
theorem order_missing_lessonId_500_witness :
    ((LessonIdField.absent = LessonIdField.absent ∨
        ∃ d, LessonIdField.absent = LessonIdField.notArray d) ∧
      (handleOrder ⟨[], []⟩ "i" .absent none).resp.status = 500 ∧
      bodyMessage (handleOrder ⟨[], []⟩ "i" .absent none).resp.body =
        some "Something went wrong!" ∧
      (handleOrder ⟨[], []⟩ "i" .absent none).db = ⟨[], []⟩ ∧
      (handleOrder ⟨[], []⟩ "i" .absent none).trace = []) :=
  ⟨Or.inl rfl,
    (order_missing_lessonId_500 ⟨[], []⟩ "i" .absent none (Or.inl rfl)).1,
    (order_missing_lessonId_500 ⟨[], []⟩ "i" .absent none (Or.inl rfl)).2.1,
    (order_missing_lessonId_500 ⟨[], []⟩ "i" .absent none (Or.inl rfl)).2.2.2.1,
    (order_missing_lessonId_500 ⟨[], []⟩ "i" .absent none (Or.inl rfl)).2.2.2.2⟩

/-- C1: for every non-empty query, `GET /search` runs the full-text index
search first; the fallback query runs exactly when the full-text search
matched zero documents; and when the fallback runs and matches, the
response body is exactly the lessons whose `subject` OR `location`
contains the query as a case-insensitive substring. -/
theorem search_fulltext_first_fallback_substring (db : DB) (q : String)
    (h : q ≠ "") :
    ((handleSearch db (some q) none).trace.head? = some (StoreOp.findText q)) ∧
    (StoreOp.findRegex q ∈ (handleSearch db (some q) none).trace ↔
      db.lessons.filter (textIndexMatch q) = []) ∧
    (db.lessons.filter (textIndexMatch q) = [] →
      db.lessons.filter (regexFallbackMatch q) ≠ [] →
      (handleSearch db (some q) none).resp =
        ⟨200, .lessonsList (db.lessons.filter (fun l =>
          containsCI (subjectOf l) q || containsCI (locationOf l) q))⟩) := by
  by_cases h1 : db.lessons.filter (textIndexMatch q) = []
  · have e1 : (db.lessons.filter (textIndexMatch q)).isEmpty = true := by
      rw [h1]; rfl
    by_cases h2 : db.lessons.filter (regexFallbackMatch q) = []
    · have e2 : (db.lessons.filter (regexFallbackMatch q)).isEmpty = true := by
        rw [h2]; rfl
      have hval : handleSearch db (some q) none =
          ⟨⟨404, .errMsg "No lessons found."⟩, db, [.findText q, .findRegex q]⟩ := by
        simp [handleSearch, h, e1, e2]
      rw [hval]
      refine ⟨rfl, ?_, ?_⟩
      · simp [h1]
      · intro _ hc
        exact absurd h2 hc
    · have e2 : (db.lessons.filter (regexFallbackMatch q)).isEmpty = false := by
        cases hf : db.lessons.filter (regexFallbackMatch q) with
        | nil => exact absurd hf h2
        | cons a rest => rfl
      have hval : handleSearch db (some q) none =
          ⟨⟨200, .lessonsList (db.lessons.filter (regexFallbackMatch q))⟩, db,
            [.findText q, .findRegex q]⟩ := by
        simp [handleSearch, h, e1, e2]
      rw [hval]
      refine ⟨rfl, ?_, ?_⟩
      · simp [h1]
      · intro _ _
        rfl
  · have e1 : (db.lessons.filter (textIndexMatch q)).isEmpty = false := by
      cases hf : db.lessons.filter (textIndexMatch q) with
      | nil => exact absurd hf h1
      | cons a rest => rfl
    have hval : handleSearch db (some q) none =
        ⟨⟨200, .lessonsList (db.lessons.filter (textIndexMatch q))⟩, db,
          [.findText q]⟩ := by
      simp [handleSearch, h, e1]
    rw [hval]
    refine ⟨rfl, ?_, ?_⟩
    · simp [h1]
    · intro hc _
      exact absurd hc h1

/-- Witness for C1: the query `"math"` misses the text index on the
subject `"Mathematics"` and is answered through the substring fallback. -/
theorem search_fulltext_first_fallback_substring_witness :
    ("math" ≠ "") ∧
    (((handleSearch
          ⟨[⟨"aaaaaaaaaaaaaaaaaaaaaaaa", [("subject", "Mathematics"), ("location", "London")]⟩], []⟩
          (some "math") none).trace.head? = some (StoreOp.findText "math")) ∧
     (StoreOp.findRegex "math" ∈
        (handleSearch
          ⟨[⟨"aaaaaaaaaaaaaaaaaaaaaaaa", [("subject", "Mathematics"), ("location", "London")]⟩], []⟩
          (some "math") none).trace ↔
        ([⟨"aaaaaaaaaaaaaaaaaaaaaaaa", [("subject", "Mathematics"), ("location", "London")]⟩] :
            List Lesson).filter (textIndexMatch "math") = []) ∧
     (([⟨"aaaaaaaaaaaaaaaaaaaaaaaa", [("subject", "Mathematics"), ("location", "London")]⟩] :
          List Lesson).filter (textIndexMatch "math") = [] →
      ([⟨"aaaaaaaaaaaaaaaaaaaaaaaa", [("subject", "Mathematics"), ("location", "London")]⟩] :
          List Lesson).filter (regexFallbackMatch "math") ≠ [] →
      (handleSearch
          ⟨[⟨"aaaaaaaaaaaaaaaaaaaaaaaa", [("subject", "Mathematics"), ("location", "London")]⟩], []⟩
          (some "math") none).resp =
        ⟨200, .lessonsList
          (([⟨"aaaaaaaaaaaaaaaaaaaaaaaa", [("subject", "Mathematics"), ("location", "London")]⟩] :
              List Lesson).filter (fun l =>
            containsCI (subjectOf l) "math" || containsCI (locationOf l) "math"))⟩)) :=
  ⟨by decide,
    search_fulltext_first_fallback_substring
      ⟨[⟨"aaaaaaaaaaaaaaaaaaaaaaaa", [("subject", "Mathematics"), ("location", "London")]⟩], []⟩
      "math" (by decide)⟩

/-- Counterexample to C7 as stated: on a store failure the `GET /search`
handler answers 500 from its own local `catch` with the body
`{ error: "An error occurred during the search." }`, not through the
centralized responder and not with the message "Something went wrong!". -/
theorem search_error_not_centralized_counterexample :
    (handleSearch ⟨[], []⟩ (some "x") (some ⟨"boom"⟩)).resp.status = 500 ∧
    (handleSearch ⟨[], []⟩ (some "x") (some ⟨"boom"⟩)).resp.body =
      .errMsg "An error occurred during the search." ∧
    bodyMessage (handleSearch ⟨[], []⟩ (some "x") (some ⟨"boom"⟩)).resp.body ≠
      some "Something went wrong!" := by
  decide

/-- C7 (amended): the `/lessons`, `/order`, `/updateLesson` and
`/deleteLesson` handlers delegate a store failure to the centralized
responder, which answers HTTP 500 with message "Something went wrong!"
and an `error` field carrying the exception's own message (or "Internal
Server Error" when empty); the `GET /search` handler instead catches its
store failures locally and answers HTTP 500 with only its generic body
`{ error: "An error occurred during the search." }`.  No handler mutates
the store on failure. -/
theorem store_failures_error_responses (db : DB) (e : StoreErr)
    (info : String) (ids : List String) (id : String)
    (body : List (String × String)) (q : String)
    (hq : q ≠ "") (hids : ids.all (fun i => ObjectId.isValid i) = true)
    (hid : ObjectId.isValid id = true) (hbody : body ≠ []) :
    (handleLessons db (some e)).resp = errorMiddleware e ∧
    (handleOrder db info (.array ids) (some e)).resp = errorMiddleware e ∧
    (handleUpdate db id body (some e)).resp = errorMiddleware e ∧
    (handleDelete db id (some e)).resp = errorMiddleware e ∧
    errorMiddleware e = ⟨500, .errorFull "Something went wrong!"
      (if e.message = "" then "Internal Server Error" else e.message)⟩ ∧
    (handleSearch db (some q) (some e)).resp =
      ⟨500, .errMsg "An error occurred during the search."⟩ ∧
    (handleLessons db (some e)).db = db ∧
    (handleOrder db info (.array ids) (some e)).db = db ∧
    (handleUpdate db id body (some e)).db = db ∧
    (handleDelete db id (some e)).db = db ∧
    (handleSearch db (some q) (some e)).db = db := by
  have hb : body.isEmpty = false := by
    cases body with
    | nil => exact absurd rfl hbody
    | cons kv rest => rfl
  refine ⟨?_, ?_, ?_, ?_, rfl, ?_, ?_, ?_, ?_, ?_, ?_⟩ <;>
    simp [handleLessons, handleOrder, handleUpdate, handleDelete, handleSearch,
      hq, hids, hid, hb]

/-- Witness for C7 (amended) at a concrete store error and concrete
requests. -/
theorem store_failures_error_responses_witness :
    ("x" ≠ "") ∧
    (["aaaaaaaaaaaaaaaaaaaaaaaa"].all (fun i => ObjectId.isValid i) = true) ∧
    (ObjectId.isValid "aaaaaaaaaaaaaaaaaaaaaaaa" = true) ∧
    (([("p", "1")] : List (String × String)) ≠ []) ∧
    (handleLessons ⟨[], []⟩ (some ⟨"boom"⟩)).resp = errorMiddleware ⟨"boom"⟩ ∧
    (handleOrder ⟨[], []⟩ "i" (.array ["aaaaaaaaaaaaaaaaaaaaaaaa"]) (some ⟨"boom"⟩)).resp =
      errorMiddleware ⟨"boom"⟩ ∧
    (handleUpdate ⟨[], []⟩ "aaaaaaaaaaaaaaaaaaaaaaaa" [("p", "1")] (some ⟨"boom"⟩)).resp =
      errorMiddleware ⟨"boom"⟩ ∧
    (handleDelete ⟨[], []⟩ "aaaaaaaaaaaaaaaaaaaaaaaa" (some ⟨"boom"⟩)).resp =
      errorMiddleware ⟨"boom"⟩ ∧
    errorMiddleware ⟨"boom"⟩ = ⟨500, .errorFull "Something went wrong!" "boom"⟩ ∧
    (handleSearch ⟨[], []⟩ (some "x") (some ⟨"boom"⟩)).resp =
      ⟨500, .errMsg "An error occurred during the search."⟩ :=
  have h := store_failures_error_responses ⟨[], []⟩ ⟨"boom"⟩ "i"
    ["aaaaaaaaaaaaaaaaaaaaaaaa"] "aaaaaaaaaaaaaaaaaaaaaaaa" [("p", "1")] "x"
    (by decide) (by decide) (by decide) (by decide)
  ⟨by decide, by decide, by decide, by decide,
    h.1, h.2.1, h.2.2.1, h.2.2.2.1, by decide, h.2.2.2.2.2.1⟩

/-- The `updateOne` operation never changes the number of stored documents. -/
theorem updateFirst_length (ls : List Lesson) (id : String)
    (upd : List (String × String)) :
    (updateFirst ls id upd).length = ls.length := by
  induction ls with
  | nil => rfl
  | cons l rest ih =>
    by_cases h : l.oid = id <;> simp [updateFirst, h, ih]

/-- C8: `PUT /updateLesson/:id` with a non-empty body has partial-merge
semantics: at every position of the collection the document keeps its
identifier, every field whose key is not submitted in the body keeps its
value, and no document is added or removed. -/
theorem update_partial_merge_frame (db : DB) (id : String)
    (body : List (String × String)) (k : String) (i : Nat)
    (hid : ObjectId.isValid id = true) (hbody : body ≠ [])
    (hk : k ∉ body.map Prod.fst) :
    ((handleUpdate db id body none).db.lessons[i]?.map (fun l => l.fields.lookup k)) =
      (db.lessons[i]?.map (fun l => l.fields.lookup k)) ∧
    ((handleUpdate db id body none).db.lessons[i]?.map Lesson.oid) =
      (db.lessons[i]?.map Lesson.oid) ∧
    (handleUpdate db id body none).db.lessons.length = db.lessons.length := by
  have hb : body.isEmpty = false := by
    cases body with
    | nil => exact absurd rfl hbody
    | cons kv rest => rfl
  have hdb : (handleUpdate db id body none).db.lessons = updateFirst db.lessons id body := by
    by_cases hm : modifiedCount db.lessons id body > 0 <;>
      simp [handleUpdate, hid, hb, hm]
  rw [hdb]
  rcases updateFirst_getEq db.lessons id body i with hcase | ⟨l, hl, hl'⟩
  · rw [hcase]
    exact ⟨rfl, rfl, updateFirst_length db.lessons id body⟩
  · rw [hl, hl']
    refine ⟨?_, rfl, updateFirst_length db.lessons id body⟩
    simp only [Option.map_some']
    exact congrArg some (lookup_applySet_notMem body l.fields k hk)

/-- Witness for C8: updating `price` leaves `subject` (and the id)
untouched. -/
theorem update_partial_merge_frame_witness :
    (ObjectId.isValid "aaaaaaaaaaaaaaaaaaaaaaaa" = true) ∧
    (([("price", "25")] : List (String × String)) ≠ []) ∧
    ("subject" ∉ ([("price", "25")] : List (String × String)).map Prod.fst) ∧
    ((handleUpdate ⟨[⟨"aaaaaaaaaaaaaaaaaaaaaaaa",
          [("subject", "Mathematics"), ("price", "20")]⟩], []⟩
        "aaaaaaaaaaaaaaaaaaaaaaaa" [("price", "25")] none).db.lessons[0]?.map
          (fun l => l.fields.lookup "subject") =
      (([⟨"aaaaaaaaaaaaaaaaaaaaaaaa", [("subject", "Mathematics"), ("price", "20")]⟩] :
          List Lesson)[0]?.map (fun l => l.fields.lookup "subject"))) :=
  ⟨by decide, by decide, by decide,
    (update_partial_merge_frame
      ⟨[⟨"aaaaaaaaaaaaaaaaaaaaaaaa", [("subject", "Mathematics"), ("price", "20")]⟩], []⟩
      "aaaaaaaaaaaaaaaaaaaaaaaa" [("price", "25")] "subject" 0
      (by decide) (by decide) (by decide)).1⟩

/-- C9: every `GET /health` call answers HTTP 200 with the
`{status, message, timestamp}` body carrying the clock reading of the
call, so across any sequence of calls whose clock readings are
monotone the returned timestamps are monotone. -/
theorem health_200_fields_monotone (ts : List Nat)
    (hts : ts.Chain' (fun a b => a ≤ b)) :
    (∀ t ∈ ts, handleHealth t =
      ⟨200, .health "success" "Server is healthy and running!" t⟩) ∧
    (ts.map (fun t => bodyTimestamp (handleHealth t).body)).Chain'
      (fun a b => a ≤ b) := by
  constructor
  · intro t _
    rfl
  · have hmap : ts.map (fun t => bodyTimestamp (handleHealth t).body) = ts := by
      simp [handleHealth, bodyTimestamp]
    rw [hmap]
    exact hts

/-- Witness for C9 at three successive clock readings. -/
theorem health_200_fields_monotone_witness :
    (([1, 2, 3] : List Nat).Chain' (fun a b => a ≤ b)) ∧
    ((∀ t ∈ ([1, 2, 3] : List Nat), handleHealth t =
        ⟨200, .health "success" "Server is healthy and running!" t⟩) ∧
     (([1, 2, 3] : List Nat).map (fun t => bodyTimestamp (handleHealth t).body)).Chain'
        (fun a b => a ≤ b)) :=
  ⟨by simp [List.chain'_cons],
    health_200_fields_monotone [1, 2, 3] (by simp [List.chain'_cons])⟩
